import Mathlib

/-!
# Verification of the smaract command-dispatch and error-draining layer

Shallow embedding of the smaract repository's core protocol layer
(`smaract/controller.py` and `smaract/axis.py`) and proofs about it.

The transport (`self._comm.send_cmd`) is modelled as a pre-scripted
environment: one raw reply for the command itself, a list of successive
integer answers to the error-count query `:SYST:ERR:COUN?` (the Python
code applies `int(...)` at the transport boundary; we store the parsed
integers), and a list of successive raw string answers to the next-error
query `:SYST:ERR:NEXT?`.

String primitives (`str.split`, `int`, `str.lower`, `str.format`,
`str.replace`) are embedded as structural recursions over the character
list of the string, so that every definition evaluates inside the kernel
on concrete inputs.
-/

namespace Smaract

/-- Python `s.split(sep)` / `s.rsplit(sep)` with a one-character separator
and no maxsplit (both produce the same list), as a structural recursion
over the characters: `acc` holds the reversed current chunk. -/
def pySplitAux (sep : Char) : List Char → List Char → List String
  | [], acc => [String.mk acc.reverse]
  | ch :: cs, acc =>
    if ch = sep then String.mk acc.reverse :: pySplitAux sep cs []
    else pySplitAux sep cs (ch :: acc)

/-- Python `s.split(sep)` for a one-character separator. -/
def pySplit (sep : Char) (s : String) : List String :=
  pySplitAux sep s.data []

/-- Accumulator pass of decimal parsing: all characters must be digits. -/
def digitsToNat : List Char → Nat → Option Nat
  | [], acc => some acc
  | ch :: cs, acc =>
    if ch.isDigit then digitsToNat cs (acc * 10 + (ch.toNat - 48))
    else none

/-- Decimal value of a nonempty all-digit character list. -/
def pyIntDigits : List Char → Option Nat
  | [] => none
  | ch :: cs => digitsToNat (ch :: cs) 0

/-- Python `int(s)` for plain decimal strings with an optional leading
minus sign (the only shapes the controller produces); other strings give
`none` where Python raises ValueError. -/
def pyInt (s : String) : Option Int :=
  match s.data with
  | [] => none
  | ch :: cs =>
    if ch = '-' then (pyIntDigits cs).map (fun n => -(n : Int))
    else (pyIntDigits (ch :: cs)).map (fun n => (n : Int))

/-- `int(resp.rsplit(',')[0])` from `SmaractBaseController.send_cmd`:
Python `rsplit(',')` with no maxsplit splits on every comma and `[0]`
takes the first chunk.  `int(...)` is totalised with default 0; every
record considered in this development carries a parseable code, so the
default is never exercised. -/
def parsedErrorCode (resp : String) : Int :=
  (pyInt ((pySplit ',' resp).getD 0 "")).getD 0

/-- `resp.rsplit(',')[1]` from `SmaractBaseController.send_cmd`: the
second comma-separated chunk of the raw next-error response.  Totalised
with default ""; every record considered here contains a comma, so the
Python IndexError path is never exercised. -/
def parsedErrorMsg (resp : String) : String :=
  (pySplit ',' resp).getD 1 ""

/-- `'Error %d: %s' % (error_code, error_msg)`: the text carried by the
RuntimeError that `send_cmd` raises. -/
def errorText (code : Int) (msg : String) : String :=
  "Error " ++ toString code ++ ": " ++ msg

/-- Outcome of one `SmaractBaseController.send_cmd` call.
`reply` is the normal return, `controllerError` is the RuntimeError raised
from the drain loop (carrying the parsed `error_code` and `error_msg`
variables; the exception's text is `errorText code msg`), and `blocked`
marks the point where the scripted transport has no further response (the
real code would block on the transport forever). -/
inductive SendResult where
  | reply (ans : String)
  | controllerError (code : Int) (msg : String)
  | blocked
deriving DecidableEq, Repr

/-- The `while True` drain loop of `SmaractBaseController.send_cmd`
(controller.py lines 114-125), over the scripted transport.  Besides the
result it returns the number of count queries and of next-error queries
performed, so round-trips can be counted.  Each iteration: read the next
count answer; `if err == 0: break`; otherwise read the next error record,
parse it, and `if error_code != 0` raise; else loop. -/
def drainLoop (ans : String) : List Int → List String → SendResult × Nat × Nat
  | [], _ => (SendResult.blocked, 0, 0)
  | c :: cs, rs =>
    if c = 0 then (SendResult.reply ans, 1, 0)
    else
      match rs with
      | [] => (SendResult.blocked, 1, 0)
      | r :: rs2 =>
        if parsedErrorCode r ≠ 0 then
          (SendResult.controllerError (parsedErrorCode r) (parsedErrorMsg r), 1, 1)
        else
          ((drainLoop ans cs rs2).1,
           (drainLoop ans cs rs2).2.1 + 1,
           (drainLoop ans cs rs2).2.2 + 1)

/-- The scripted transport for one `send_cmd` call: the raw reply to the
command, the successive answers to `:SYST:ERR:COUN?` (already through
`int(...)`), and the successive raw answers to `:SYST:ERR:NEXT?`. -/
structure CommEnv where
  reply : String
  counts : List Int
  errResponses : List String
deriving DecidableEq, Repr

/-- Observable outcome of `send_cmd`: the result plus how many count
queries and next-error queries the drain performed. -/
structure SendOutcome where
  result : SendResult
  countReads : Nat
  nextReads : Nat
deriving DecidableEq, Repr

/-- `SmaractBaseController.send_cmd` (controller.py lines 105-126): send
the command (one transport round-trip yielding `ans`), run the drain loop,
and return `ans` only if the drain broke out on a zero count. -/
def send_cmd (env : CommEnv) : SendOutcome :=
  { result := (drainLoop env.reply env.counts env.errResponses).1
    countReads := (drainLoop env.reply env.counts env.errResponses).2.1
    nextReads := (drainLoop env.reply env.counts env.errResponses).2.2 }

/-- Total transport round-trips of one `send_cmd` call: one for the
command itself plus one per count query plus one per next-error query. -/
def roundtrips (o : SendOutcome) : Nat :=
  1 + o.countReads + o.nextReads

/-! ## Axis enumeration (`SmaractMCSController._create_axes`) -/

/-- Python `s.replace(c, '')` for a one-character pattern: every
occurrence of the character is removed. -/
def pyRemoveChar (target : Char) (s : String) : String :=
  String.mk (s.data.filter (fun ch => ch ≠ target))

/-- `ans.replace('\"', '').replace('\r', '').rsplit('.')[0]` from
`_create_axes` (controller.py line 188): strip quote and carriage-return
characters, split on every dot, take the first chunk (`rsplit` with no
maxsplit equals `split`, and a split result is never empty, so the Python
`[0]` never fails). -/
def parseSensorCode (ans : String) : String :=
  (pySplit '.' (pyRemoveChar '\r' (pyRemoveChar '\"' ans))).getD 0 ""

/-- The three accepting branches of `_create_axes` (controller.py lines
189-197): sensor code in `['SL']`, in `['SR']`, or in
`['CUSTOM0', 'CUSTOM1', 'CUSTOM2', 'CUSTOM3']`.  All three construct a
`SmaractBaseAxis(self, axis_nr)` and append it. -/
def knownSensorCode (s : String) : Bool :=
  ["SL"].contains s || ["SR"].contains s ||
    ["CUSTOM0", "CUSTOM1", "CUSTOM2", "CUSTOM3"].contains s

/-- The message of the RuntimeError raised by the `else` branch of
`_create_axes` (controller.py lines 199-201). -/
def axisFailMsg (axisNr : Nat) (sensorCode : String) : String :=
  "Failed to create axis " ++ toString axisNr ++ "\n" ++
    "There is not axis class for sensor code " ++ sensorCode

/-- Scripted transport for one enumeration run: the channel count the
controller reports to `:DEV:NOCH?` (already through `int(...)`), and the
raw answer each channel gives to `:CHAN<i>:PTYPE:NAME?`. -/
structure EnumEnv where
  nchannels : Nat
  sensorAnswers : List String
deriving DecidableEq, Repr

/-- The `for axis_nr in range(self.nchannels)` loop of `_create_axes`
(controller.py lines 186-201): `is` holds the channel indices still to
visit, `axes` the channel numbers of the `SmaractBaseAxis` objects
appended to the controller (which IS a list) so far.  An axis object is
modelled by the channel number it stores.  On an unknown sensor code the
loop raises (second component `some message`) and the axes appended so
far REMAIN on the controller; otherwise it finishes with `none`. -/
def createAxesGo (answers : List String) : List Nat → List Nat → List Nat × Option String
  | [], axes => (axes, none)
  | i :: is, axes =>
    let code := parseSensorCode (answers.getD i "")
    if knownSensorCode code then createAxesGo answers is (axes ++ [i])
    else (axes, some (axisFailMsg i code))

/-- `SmaractMCSController._create_axes` (controller.py lines 178-201):
the `while True: self.pop()` loop first empties the controller's axis
list (whatever `prior` it held), then the channel loop runs from the
empty list.  Returns the final contents of the controller's axis list and
the raised message, if any. -/
def create_axes (env : EnumEnv) (prior : List Nat) : List Nat × Option String :=
  createAxesGo env.sensorAnswers (List.range env.nchannels) []

/-! ## Axis-level commands (`smaract/axis.py`) -/

/-- The opening curly-brace character. -/
def lbrace : Char := Char.ofNat 123

/-- The closing curly-brace character. -/
def rbrace : Char := Char.ofNat 125

/-- Replace every occurrence of the axis-index placeholder (an opening
brace, a colon, the letter d, a closing brace) by `sub`, leaving all
other characters unchanged.  The `Nat` argument is fuel making the
recursion structural; every step consumes at least one character, so fuel
equal to the length of the character list (as supplied by `pyFormatAxis`)
is always sufficient and the fuel-exhausted branch is never reached. -/
def formatAxisAux (sub : List Char) : Nat → List Char → List Char
  | _, [] => []
  | 0, rest => rest
  | fuel + 1, ch :: rest =>
    match rest with
    | c1 :: c2 :: c3 :: rest2 =>
      if ch = lbrace ∧ c1 = ':' ∧ c2 = 'd' ∧ c3 = rbrace then
        sub ++ formatAxisAux sub fuel rest2
      else ch :: formatAxisAux sub fuel rest
    | _ => ch :: formatAxisAux sub fuel rest

/-- `str_cmd.format(self._axis_nr)` as used by `SmaractBaseAxis._send_cmd`
(axis.py line 40): every template in axis.py contains at most one
placeholder, always the decimal one, so Python's format amounts to
substituting the decimal rendering of the axis number for each
placeholder; a template with no placeholder is returned unchanged and the
argument is silently discarded (Python's format ignores unused
positional arguments). -/
def pyFormatAxis (template : String) (axisNr : Nat) : String :=
  String.mk (formatAxisAux (toString axisNr).data template.data.length template.data)

/-- The command string that `SmaractBaseAxis._send_cmd` (axis.py lines
31-41) hands to `self._ctrl.send_cmd`: only the axis number is
substituted into the template; the `*pars` tuple is bound by the Python
signature but never used, so the positional parameters are silently
discarded — the `pars` argument is ignored here exactly as in the
source. -/
def axisCommandString (axisNr : Nat) (strCmd : String) (pars : List Int) : String :=
  pyFormatAxis strCmd axisNr

/-- Python `s.lower()` (ASCII data): lower-case every character. -/
def pyLower (s : String) : String :=
  String.mk (s.data.map Char.toLower)

/-- The `safe_direction` setter of `SmaractBaseAxis` (axis.py lines
60-78): lower-case the argument; `'forward'` maps to value 0 and
`'backward'` to 1, each followed by `self._send_cmd('SSD', value)`
(modelled by returning the command string written to the transport);
anything else raises `ValueError('Read the help')` before any transport
call (modelled by `Except.error`, which carries no command). -/
def safe_direction_set (axisNr : Nat) (direction : String) : Except String String :=
  let d := pyLower direction
  if d = "forward" then Except.ok (axisCommandString axisNr "SSD" [0])
  else if d = "backward" then Except.ok (axisCommandString axisNr "SSD" [1])
  else Except.error "Read the help"

/-- Prefix and suffix of a template around its first axis-index
placeholder, or `none` if the template has no placeholder. -/
def templatePartsAux : List Char → List Char → Option (List Char × List Char)
  | [], _ => none
  | ch :: rest, acc =>
    if ch = lbrace then
      match rest with
      | c1 :: c2 :: c3 :: rest2 =>
        if c1 = ':' ∧ c2 = 'd' ∧ c3 = rbrace then some (acc.reverse, rest2)
        else templatePartsAux rest (ch :: acc)
      | _ => templatePartsAux rest (ch :: acc)
    else templatePartsAux rest (ch :: acc)

/-- Modelled from the spec: the source has no inverse of the command
formatting, but the spec's round-trip property ("formatting a command
template with an axis index N and parsing it back recovers N exactly")
requires one.  Faithful to the spec's words, the parser locates the
template's placeholder, strips the template's literal prefix and suffix
from the formatted command, and reads the remaining characters as a
decimal number. -/
def parseAxisIndex (template cmd : String) : Option Nat :=
  match templatePartsAux template.data [] with
  | none => none
  | some (pre, suf) =>
    pyIntDigits ((cmd.data.drop pre.length).take (cmd.data.length - pre.length - suf.length))

/-- The axis-level command templates of axis.py that contain the
axis-index placeholder. -/
def axisCommandTemplates : List String :=
  [":CHAN{:d}:PTYPE:NAME?", ":CHAN{:d}:POS?", ":CAL{:d}", ":REF{:d}", ":STOP{:d}"]

/-! ## Helper lemmas about the drain loop -/

/-- If the first `j+1` count answers are nonzero, the first `j` records
parse to code 0, and record `j` parses to a nonzero code, the drain
raises at record `j` with that record's parsed code and message, after
`j+1` count queries and `j+1` next-error queries. -/
theorem drainLoop_raise (ans : String) :
    ∀ (j : Nat) (counts : List Int) (rs : List String) (r : String),
      (∀ i, i ≤ j → counts[i]?.getD 0 ≠ 0) →
      (∀ i, i < j → rs[i]?.map parsedErrorCode = some 0) →
      rs[j]? = some r →
      parsedErrorCode r ≠ 0 →
      drainLoop ans counts rs =
        (SendResult.controllerError (parsedErrorCode r) (parsedErrorMsg r), j + 1, j + 1) := by
  intro j
  induction j with
  | zero =>
    intro counts rs r hc hr hj hcode
    have h0 := hc 0 (Nat.le_refl 0)
    cases counts with
    | nil => simp at h0
    | cons c cs =>
      cases rs with
      | nil => simp at hj
      | cons r0 rs2 =>
        have hr0 : r0 = r := by simpa using hj
        subst hr0
        have hcne : c ≠ 0 := by simpa using h0
        simp [drainLoop, hcne, hcode]
  | succ j ih =>
    intro counts rs r hc hr hj hcode
    have h0 := hc 0 (Nat.zero_le _)
    cases counts with
    | nil => simp at h0
    | cons c cs =>
      cases rs with
      | nil => simp at hj
      | cons r0 rs2 =>
        have hr0 : parsedErrorCode r0 = 0 := by
          simpa using hr 0 (Nat.succ_pos j)
        have hcne : c ≠ 0 := by simpa using h0
        have step := ih cs rs2 r
          (fun i hi => by simpa using hc (i + 1) (Nat.succ_le_succ hi))
          (fun i hi => by simpa using hr (i + 1) (Nat.succ_lt_succ hi))
          (by simpa using hj) hcode
        simp [drainLoop, hcne, hr0, step]

/-- If the first `k` count answers are nonzero, the first `k` records
parse to code 0, and count answer `k` is 0, the drain returns the reply
after `k+1` count queries and `k` next-error queries. -/
theorem drainLoop_success (ans : String) :
    ∀ (k : Nat) (counts : List Int) (rs : List String),
      (∀ i, i < k → counts[i]?.getD 0 ≠ 0) →
      (∀ i, i < k → rs[i]?.map parsedErrorCode = some 0) →
      counts[k]? = some 0 →
      drainLoop ans counts rs = (SendResult.reply ans, k + 1, k) := by
  intro k
  induction k with
  | zero =>
    intro counts rs hc hr hk
    cases counts with
    | nil => simp at hk
    | cons c cs =>
      have hc0 : c = 0 := by simpa using hk
      simp [drainLoop, hc0]
  | succ k ih =>
    intro counts rs hc hr hk
    have h0 := hc 0 (Nat.succ_pos k)
    cases counts with
    | nil => simp at h0
    | cons c cs =>
      cases rs with
      | nil =>
        have := hr 0 (Nat.succ_pos k)
        simp at this
      | cons r0 rs2 =>
        have hr0 : parsedErrorCode r0 = 0 := by
          simpa using hr 0 (Nat.succ_pos k)
        have hcne : c ≠ 0 := by simpa using h0
        have step := ih cs rs2
          (fun i hi => by simpa using hc (i + 1) (Nat.succ_lt_succ hi))
          (fun i hi => by simpa using hr (i + 1) (Nat.succ_lt_succ hi))
          (by simpa using hk)
        simp [drainLoop, hcne, hr0, step]

/-- Inversion: a drain that returns the reply did so after some `n`
zero-code records, with the count re-queried after every record (`n+1`
count queries), stopping exactly on a zero count answer. -/
theorem drainLoop_success_inv (ans : String) :
    ∀ (counts : List Int) (rs : List String) (a : String) (k n : Nat),
      drainLoop ans counts rs = (SendResult.reply a, k, n) →
      a = ans ∧ k = n + 1 ∧ counts[n]? = some 0 ∧
        (∀ i, i < n → counts[i]?.getD 0 ≠ 0) ∧
        (∀ i, i < n → rs[i]?.map parsedErrorCode = some 0) := by
  intro counts
  induction counts with
  | nil =>
    intro rs a k n h
    simp [drainLoop] at h
  | cons c cs ih =>
    intro rs a k n h
    by_cases hc : c = 0
    · subst hc
      simp [drainLoop] at h
      obtain ⟨h1, h2, h3⟩ := h
      subst h2
      subst h3
      exact ⟨h1.symm, rfl, by simp, by omega, by omega⟩
    · cases rs with
      | nil => simp [drainLoop, hc] at h
      | cons r rs2 =>
        by_cases hcode : parsedErrorCode r ≠ 0
        · simp [drainLoop, hc, hcode] at h
        · have hr0 : parsedErrorCode r = 0 := not_not.mp hcode
          rcases hD : drainLoop ans cs rs2 with ⟨res, k0, n0⟩
          rw [drainLoop] at h
          simp [hc, hr0, hD] at h
          obtain ⟨h1, h2, h3⟩ := h
          subst h2
          subst h3
          obtain ⟨e1, e2, e3, e4, e5⟩ := ih rs2 a k0 n0 (by rw [hD, h1])
          subst e2
          refine ⟨e1, rfl, by simpa using e3, ?_, ?_⟩
          · intro i hi
            cases i with
            | zero => simpa using hc
            | succ i => simpa using e4 i (Nat.lt_of_succ_lt_succ hi)
          · intro i hi
            cases i with
            | zero => simpa using hr0
            | succ i => simpa using e5 i (Nat.lt_of_succ_lt_succ hi)

/-- Whenever the drain does not run the transport dry, it performs at
least one count query, at most one count query more than next-error
queries, and at least as many count queries as next-error queries. -/
theorem drainLoop_reads (ans : String) :
    ∀ (counts : List Int) (rs : List String),
      (drainLoop ans counts rs).1 ≠ SendResult.blocked →
      1 ≤ (drainLoop ans counts rs).2.1 ∧
        (drainLoop ans counts rs).2.2 ≤ (drainLoop ans counts rs).2.1 ∧
        (drainLoop ans counts rs).2.1 ≤ (drainLoop ans counts rs).2.2 + 1 := by
  intro counts
  induction counts with
  | nil =>
    intro rs h
    simp [drainLoop] at h
  | cons c cs ih =>
    intro rs h
    by_cases hc : c = 0
    · simp [drainLoop, hc]
    · cases rs with
      | nil => simp [drainLoop, hc] at h
      | cons r rs2 =>
        by_cases hcode : parsedErrorCode r ≠ 0
        · simp [drainLoop, hc, hcode]
        · have hr0 : parsedErrorCode r = 0 := not_not.mp hcode
          have h2 : (drainLoop ans cs rs2).1 ≠ SendResult.blocked := by
            simp [drainLoop, hc, hr0] at h
            exact h
          have hrec := ih rs2 h2
          simp [drainLoop, hc, hr0]
          omega

/-! ## Helper lemmas about the enumeration loop -/

/-- If every channel still to visit reports a known sensor code, the
channel loop appends them all in order and raises nothing. -/
theorem createAxesGo_all_known (answers : List String) :
    ∀ (is acc : List Nat),
      (∀ i ∈ is, knownSensorCode (parseSensorCode (answers.getD i "")) = true) →
      createAxesGo answers is acc = (acc ++ is, none) := by
  intro is
  induction is with
  | nil =>
    intro acc h
    simp [createAxesGo]
  | cons i is2 ih =>
    intro acc h
    have hi := h i (by simp)
    have step := ih (acc ++ [i]) (fun j hj => h j (List.mem_cons_of_mem _ hj))
    simp only [createAxesGo]
    rw [if_pos hi, step]
    simp

/-- If the channels in `pre` all report known codes and channel `j`
reports an unknown one, the loop raises at `j` and the axes appended so
far (`acc ++ pre`) remain on the controller. -/
theorem createAxesGo_fail (answers : List String) :
    ∀ (pre : List Nat) (j : Nat) (post : List Nat) (acc : List Nat),
      (∀ i ∈ pre, knownSensorCode (parseSensorCode (answers.getD i "")) = true) →
      knownSensorCode (parseSensorCode (answers.getD j "")) = false →
      createAxesGo answers (pre ++ j :: post) acc =
        (acc ++ pre, some (axisFailMsg j (parseSensorCode (answers.getD j "")))) := by
  intro pre
  induction pre with
  | nil =>
    intro j post acc h hj
    have hj2 : knownSensorCode (parseSensorCode (answers.getD j "")) ≠ true := by
      rw [hj]
      exact Bool.false_ne_true
    simp only [List.nil_append, createAxesGo]
    rw [if_neg hj2]
    simp
  | cons p pre2 ih =>
    intro j post acc h hj
    have hp := h p (by simp)
    have step := ih j post (acc ++ [p]) (fun x hx => h x (by simp [hx])) hj
    simp only [List.cons_append, createAxesGo, List.append_eq]
    rw [if_pos hp, step]
    simp

/-- `List.range n` split at an interior index `j`. -/
theorem range_split_at (n j : Nat) (hj : j < n) :
    List.range n = List.range j ++ j :: (List.range n).drop (j + 1) := by
  have h1 : (List.range n).take j = List.range j := by
    rw [List.take_range]
    exact congrArg _ (min_eq_left hj.le)
  have h2 : (List.range n).drop j = j :: (List.range n).drop (j + 1) := by
    rw [List.drop_eq_getElem_cons (by simpa using hj)]
    simp
  conv_lhs => rw [← List.take_append_drop j (List.range n)]
  rw [h1, h2]

/-! ## Claim theorems -/

/-- C1: if the drain reads through records whose parsed codes are 0 and
then meets the first record with a nonzero parsed code (at position `j`,
each read preceded by a nonzero count answer), `send_cmd` raises a
controller error carrying exactly that record's parsed code and message,
after `j+1` count reads and `j+1` record reads — so the records that
follow are never read and no reply is returned to the caller. -/
theorem send_cmd_raises_first_nonzero_record (env : CommEnv) (j : Nat) (r : String)
    (hcounts : ∀ i, i ≤ j → env.counts[i]?.getD 0 ≠ 0)
    (hzeros : ∀ i, i < j → env.errResponses[i]?.map parsedErrorCode = some 0)
    (hrec : env.errResponses[j]? = some r)
    (hcode : parsedErrorCode r ≠ 0) :
    send_cmd env =
      { result := SendResult.controllerError (parsedErrorCode r) (parsedErrorMsg r),
        countReads := j + 1, nextReads := j + 1 } := by
  have h := drainLoop_raise env.reply j env.counts env.errResponses r hcounts hzeros hrec hcode
  simp [send_cmd, h]

/-- Witness for C1: two nonzero counts, a code-0 record read through, then
the first nonzero record (code 147) raises with its code and message; a
third record is scripted but never read. -/
theorem send_cmd_raises_first_nonzero_record_witness :
    send_cmd { reply := "OK", counts := [3, 2],
               errResponses := ["0,info", "147,Range Limit Reached Error", "9,later"] } =
      { result := SendResult.controllerError 147 "Range Limit Reached Error",
        countReads := 2, nextReads := 2 } :=
  send_cmd_raises_first_nonzero_record
    { reply := "OK", counts := [3, 2],
      errResponses := ["0,info", "147,Range Limit Reached Error", "9,later"] }
    1 "147,Range Limit Reached Error" (by decide) (by decide) (by decide) (by decide)

/-- C2: the drain loop of `send_cmd` returns normally exactly when some
count query answers 0; in that case the first `k` count answers were
nonzero, the `k` records read in between all parsed to code 0, and the
count was re-queried after every record (`k+1` count reads for `k` record
reads) — never stopping after a fixed number of reads nor merely because
a code-0 record was read. -/
theorem send_cmd_drain_stops_iff_count_zero (env : CommEnv) :
    (∃ a, (send_cmd env).result = SendResult.reply a) ↔
    (∃ k, env.counts[k]? = some 0 ∧
      (∀ i, i < k → env.counts[i]?.getD 0 ≠ 0) ∧
      (∀ i, i < k → env.errResponses[i]?.map parsedErrorCode = some 0) ∧
      send_cmd env =
        { result := SendResult.reply env.reply, countReads := k + 1, nextReads := k }) := by
  constructor
  · rintro ⟨a, ha⟩
    rcases hD : drainLoop env.reply env.counts env.errResponses with ⟨res, k0, n0⟩
    have hres : res = SendResult.reply a := by
      have := ha
      simp [send_cmd, hD] at this
      exact this
    obtain ⟨e1, e2, e3, e4, e5⟩ :=
      drainLoop_success_inv env.reply env.counts env.errResponses a k0 n0 (by rw [hD, hres])
    refine ⟨n0, e3, e4, e5, ?_⟩
    simp [send_cmd, hD, hres, e1, e2]
  · rintro ⟨k, _, _, _, h⟩
    exact ⟨env.reply, by rw [h]⟩

/-- Witness for C2: a nonzero count, a code-0 record, then a zero count;
the loop stops on the zero count and the reply is returned. -/
theorem send_cmd_drain_stops_iff_count_zero_witness :
    ∃ a, (send_cmd { reply := "OK", counts := [2, 0],
                     errResponses := ["0,advisory"] }).result = SendResult.reply a :=
  (send_cmd_drain_stops_iff_count_zero
      { reply := "OK", counts := [2, 0], errResponses := ["0,advisory"] }).mpr
    ⟨1, by decide, by decide, by decide, by decide⟩

/-- C3: when the first count query answers 0, `send_cmd` performs no
next-error read, raises nothing, and returns the raw reply unchanged
(one count read, zero record reads). -/
theorem send_cmd_zero_count_returns_reply (env : CommEnv)
    (h : env.counts[0]? = some 0) :
    send_cmd env =
      { result := SendResult.reply env.reply, countReads := 1, nextReads := 0 } := by
  cases hc : env.counts with
  | nil =>
    rw [hc] at h
    simp at h
  | cons c cs =>
    rw [hc] at h
    simp at h
    simp [send_cmd, hc, drainLoop, h]

/-- Witness for C3: count answers 0 immediately; the raw reply comes back
unchanged after exactly one count read. -/
theorem send_cmd_zero_count_returns_reply_witness :
    send_cmd { reply := "GSD0", counts := [0], errResponses := [] } =
      { result := SendResult.reply "GSD0", countReads := 1, nextReads := 0 } :=
  send_cmd_zero_count_returns_reply
    { reply := "GSD0", counts := [0], errResponses := [] } (by decide)

/-- C4 counterexample: channel 0 reports the known code SL, channel 1 the
unknown code XX.  Enumeration fails — and afterwards ONE axis (channel 0)
is registered on the controller, not zero: the claim's atomic-failure
property is false on the code. -/
theorem create_axes_unknown_code_partial_counterexample :
    create_axes { nchannels := 2, sensorAnswers := ["SL", "XX"] } [7] =
      ([0], some (axisFailMsg 1 "XX")) ∧ ([0] : List Nat) ≠ [] := by
  constructor
  · decide
  · decide

/-- C4 amended: when channel `j` is the first to report an unknown sensor
code, enumeration raises at `j`; the previously held axis list was
cleared, and the axes of the known-code channels `0..j-1` REMAIN
registered — a partial list, empty only when `j = 0`. -/
theorem create_axes_unknown_code_keeps_done_axes (env : EnumEnv) (prior : List Nat) (j : Nat)
    (hj : j < env.nchannels)
    (hknown : ∀ i, i < j →
      knownSensorCode (parseSensorCode (env.sensorAnswers.getD i "")) = true)
    (hbad : knownSensorCode (parseSensorCode (env.sensorAnswers.getD j "")) = false) :
    create_axes env prior =
      (List.range j,
       some (axisFailMsg j (parseSensorCode (env.sensorAnswers.getD j "")))) := by
  unfold create_axes
  rw [range_split_at env.nchannels j hj]
  have h := createAxesGo_fail env.sensorAnswers (List.range j) j
    ((List.range env.nchannels).drop (j + 1)) []
    (fun i hi => hknown i (List.mem_range.mp hi)) hbad
  simpa using h

/-- Witness for C4's amended claim: same scripted controller as the
counterexample; the failure at channel 1 leaves exactly channel 0's axis
registered. -/
theorem create_axes_unknown_code_keeps_done_axes_witness :
    create_axes { nchannels := 2, sensorAnswers := ["SL", "XX"] } [7] =
      ([0], some (axisFailMsg 1 "XX")) := by
  have h := create_axes_unknown_code_keeps_done_axes
    { nchannels := 2, sensorAnswers := ["SL", "XX"] } [7] 1
    (by decide) (by decide) (by decide)
  simpa using h

/-- C5: when every channel of the `C` reported channels carries a known
sensor code, enumeration succeeds and registers exactly the axes with
channel indices `0, 1, ..., C-1` in that order. -/
theorem create_axes_known_codes_in_order (env : EnumEnv) (prior : List Nat)
    (h : ∀ i, i < env.nchannels →
      knownSensorCode (parseSensorCode (env.sensorAnswers.getD i "")) = true) :
    create_axes env prior = (List.range env.nchannels, none) := by
  unfold create_axes
  have hall := createAxesGo_all_known env.sensorAnswers (List.range env.nchannels) []
    (fun i hi => h i (List.mem_range.mp hi))
  simpa using hall

/-- Witness for C5: three channels with known codes (quoted and suffixed
the way the controller reports them) enumerate to axes 0, 1, 2. -/
theorem create_axes_known_codes_in_order_witness :
    create_axes { nchannels := 3,
                  sensorAnswers := ["\"SL.LINEAR\"\r", "SR", "CUSTOM2"] } [] =
      ([0, 1, 2], none) := by
  have h := create_axes_known_codes_in_order
    { nchannels := 3, sensorAnswers := ["\"SL.LINEAR\"\r", "SR", "CUSTOM2"] } []
    (by decide)
  simpa using h

/-- C6 counterexample: the controller supplies the record code 5 with
message text containing a comma.  `resp.rsplit(',')[1]` keeps only the
text before the message's first comma, so the raised error carries
"Hello" — not the controller-supplied "Hello, world" — and its text is
"Error 5: Hello": the verbatim-inclusion claim is false on the code. -/
theorem send_cmd_comma_message_truncated_counterexample :
    (send_cmd { reply := "OK", counts := [1],
                errResponses := ["5,Hello, world"] }).result =
      SendResult.controllerError 5 "Hello" ∧
    errorText 5 "Hello" = "Error 5: Hello" ∧
    ("Hello" : String) ≠ "Hello, world" := by
  refine ⟨by decide, by decide, by decide⟩

/-- C6 amended: for every failed command the raised error carries the
record's parsed code and parsed message, and the parsed message is the
controller-supplied text verbatim exactly when that text contains no
comma (the wire record splits into precisely two chunks); a message with
a comma is truncated at its first comma.  The RuntimeError text is
`errorText c m`, which contains the numeric code and the carried message
verbatim. -/
theorem send_cmd_error_carries_code_and_precomma_message (env : CommEnv) (j : Nat)
    (r cstr m : String) (c : Int)
    (hcounts : ∀ i, i ≤ j → env.counts[i]?.getD 0 ≠ 0)
    (hzeros : ∀ i, i < j → env.errResponses[i]?.map parsedErrorCode = some 0)
    (hrec : env.errResponses[j]? = some r)
    (hsplit : pySplit ',' r = [cstr, m])
    (hint : pyInt cstr = some c)
    (hc : c ≠ 0) :
    (send_cmd env).result = SendResult.controllerError c m := by
  have hcode : parsedErrorCode r = c := by
    simp [parsedErrorCode, hsplit, hint]
  have hmsg : parsedErrorMsg r = m := by
    simp [parsedErrorMsg, hsplit]
  have h := drainLoop_raise env.reply j env.counts env.errResponses r hcounts hzeros hrec
    (by rw [hcode]; exact hc)
  simp [send_cmd, h, hcode, hmsg]

/-- Witness for C6's amended claim: a comma-free message is carried
verbatim into the raised error. -/
theorem send_cmd_error_carries_code_and_precomma_message_witness :
    (send_cmd { reply := "OK", counts := [1],
                errResponses := ["147,Range Limit Reached Error"] }).result =
      SendResult.controllerError 147 "Range Limit Reached Error" :=
  send_cmd_error_carries_code_and_precomma_message
    { reply := "OK", counts := [1], errResponses := ["147,Range Limit Reached Error"] }
    0 "147,Range Limit Reached Error" "147" "Range Limit Reached Error" 147
    (by decide) (by decide) (by decide) (by decide) (by decide) (by decide)

/-- C7: the `safe_direction` setter raises `ValueError` — writing no
command to the transport — for every string whose lower-casing is neither
"forward" nor "backward", and for the two recognised strings
(case-insensitively) it sends a command and raises nothing locally. -/
theorem safe_direction_setter_validates (axisNr : Nat) (d : String) :
    (pyLower d ≠ "forward" ∧ pyLower d ≠ "backward" →
      safe_direction_set axisNr d = Except.error "Read the help") ∧
    (pyLower d = "forward" ∨ pyLower d = "backward" →
      ∃ c, safe_direction_set axisNr d = Except.ok c) := by
  constructor
  · rintro ⟨h1, h2⟩
    simp [safe_direction_set, h1, h2]
  · rintro (h | h) <;> simp [safe_direction_set, h]

/-- Witness for C7: "sideways" is rejected locally with no command
written; "ForWard" (mixed case) is accepted and a command is sent. -/
theorem safe_direction_setter_validates_witness :
    safe_direction_set 0 "sideways" = Except.error "Read the help" ∧
    (∃ c, safe_direction_set 0 "ForWard" = Except.ok c) :=
  ⟨(safe_direction_setter_validates 0 "sideways").1 (by constructor <;> decide),
   (safe_direction_setter_validates 0 "ForWard").2 (Or.inl (by decide))⟩

/-- C8: for each placeholder-bearing axis command template of axis.py and
every axis index `N ≤ 63`, formatting the template with `N` (as the
axis-level command sender does) and parsing the index back out of the
resulting command recovers `N` exactly. -/
theorem axis_index_roundtrip :
    ∀ t ∈ axisCommandTemplates, ∀ n : Nat, n ≤ 63 →
      parseAxisIndex t (pyFormatAxis t n) = some n := by
  decide

/-- Witness for C8: the position-query template formatted with 63 parses
back to 63. -/
theorem axis_index_roundtrip_witness :
    parseAxisIndex ":CHAN{:d}:POS?" (pyFormatAxis ":CHAN{:d}:POS?" 63) = some 63 :=
  axis_index_roundtrip ":CHAN{:d}:POS?" (by decide) 63 (by decide)

/-- C9 counterexample: a call that drains N = 2 records (a code-0 record,
then a nonzero one) performs 5 transport round-trips — one command, two
count checks and two record reads — exceeding the claimed bound N+2 = 4,
because the count is re-queried after every record. -/
theorem send_cmd_roundtrips_exceed_bound_counterexample :
    send_cmd { reply := "OK", counts := [1, 1], errResponses := ["0,info", "5,bad"] } =
      { result := SendResult.controllerError 5 "bad", countReads := 2, nextReads := 2 } ∧
    roundtrips { result := SendResult.controllerError 5 "bad",
                 countReads := 2, nextReads := 2 } = 5 ∧
    ¬ (5 ≤ 2 + 2) := by
  refine ⟨by decide, by decide, by decide⟩

/-- C9 amended: a `send_cmd` call that the scripted transport fully
serves performs at least 2 and at most 2N+2 round-trips, where N is the
number of error records drained: one for the command, N record reads, and
up to N+1 count checks (the count is re-queried after every record). -/
theorem send_cmd_roundtrips_bounds (env : CommEnv)
    (h : (send_cmd env).result ≠ SendResult.blocked) :
    2 ≤ roundtrips (send_cmd env) ∧
      roundtrips (send_cmd env) ≤ 2 * (send_cmd env).nextReads + 2 := by
  have h2 : (drainLoop env.reply env.counts env.errResponses).1 ≠ SendResult.blocked := by
    simpa [send_cmd] using h
  have hr := drainLoop_reads env.reply env.counts env.errResponses h2
  simp [roundtrips, send_cmd] at hr ⊢
  omega

/-- Witness for C9's amended claim: the counterexample's scripted call
satisfies the corrected bounds (5 round-trips, N = 2, 2N+2 = 6). -/
theorem send_cmd_roundtrips_bounds_witness :
    2 ≤ roundtrips (send_cmd { reply := "OK", counts := [1, 1],
                               errResponses := ["0,info", "5,bad"] }) ∧
      roundtrips (send_cmd { reply := "OK", counts := [1, 1],
                             errResponses := ["0,info", "5,bad"] }) ≤
        2 * (send_cmd { reply := "OK", counts := [1, 1],
                        errResponses := ["0,info", "5,bad"] }).nextReads + 2 :=
  send_cmd_roundtrips_bounds
    { reply := "OK", counts := [1, 1], errResponses := ["0,info", "5,bad"] } (by decide)

/-- C10: for every direction the setter accepts, the command written to
the transport is the literal string "SSD" — the template has no
placeholder, `str.format` substitutes only the axis index, and the
`*pars` carrying the chosen value 0/1 is silently discarded, so the
direction is never transmitted. -/
theorem safe_direction_sends_bare_SSD (axisNr : Nat) (d : String)
    (h : pyLower d = "forward" ∨ pyLower d = "backward") :
    safe_direction_set axisNr d = Except.ok "SSD" := by
  have hssd : axisCommandString axisNr "SSD" [0] = "SSD" := rfl
  have hssd1 : axisCommandString axisNr "SSD" [1] = "SSD" := rfl
  rcases h with h | h <;> simp [safe_direction_set, h, hssd, hssd1]

/-- Witness for C10: "Backward" is accepted and the bare command "SSD"
is written, with the direction value nowhere in it. -/
theorem safe_direction_sends_bare_SSD_witness :
    safe_direction_set 5 "Backward" = Except.ok "SSD" :=
  safe_direction_sends_bare_SSD 5 "Backward" (Or.inr (by decide))

end Smaract

section SanityChecks

example :
    Smaract.send_cmd { reply := "OK", counts := [0], errResponses := [] } =
      { result := Smaract.SendResult.reply "OK", countReads := 1, nextReads := 0 } := by
  decide

example :
    Smaract.send_cmd { reply := "OK", counts := [1],
                       errResponses := ["147,Range Limit Reached Error"] } =
      { result := Smaract.SendResult.controllerError 147 "Range Limit Reached Error",
        countReads := 1, nextReads := 1 } := by
  decide

example :
    Smaract.send_cmd { reply := "OK", counts := [1, 1],
                       errResponses := ["0,info", "5,bad"] } =
      { result := Smaract.SendResult.controllerError 5 "bad",
        countReads := 2, nextReads := 2 } := by
  decide

example : Smaract.parsedErrorCode "-12,neg" = -12 := by decide

example : Smaract.parsedErrorMsg "5,Hello, world" = "Hello" := by decide

example : Smaract.parseSensorCode "\"SL.LINEAR\"\r" = "SL" := by decide

example :
    Smaract.create_axes { nchannels := 2, sensorAnswers := ["SL", "XX"] } [7] =
      ([0], some (Smaract.axisFailMsg 1 "XX")) := by
  decide

example :
    Smaract.create_axes { nchannels := 3, sensorAnswers := ["SL", "SR", "CUSTOM2"] } [] =
      ([0, 1, 2], none) := by
  decide

example : Smaract.pyFormatAxis ":CHAN{:d}:POS?" 63 = ":CHAN63:POS?" := by decide

example : Smaract.pyFormatAxis "SSD" 5 = "SSD" := by decide

example : Smaract.parseAxisIndex ":CHAN{:d}:POS?" ":CHAN63:POS?" = some 63 := by decide

example : Smaract.safe_direction_set 3 "ForWard" = Except.ok "SSD" := rfl

example : Smaract.safe_direction_set 3 "sideways" = Except.error "Read the help" := rfl

example :
    ∀ n, n ≤ 63 →
      Smaract.parseAxisIndex ":CHAN{:d}:POS?" (Smaract.pyFormatAxis ":CHAN{:d}:POS?" n) =
        some n := by
  decide

end SanityChecks
